import Mathlib

/-!
Shallow embedding of the IKEv2 message encoding core
(Source/charon/encoding/message.c) and proofs about its rule table,
payload-list invariants, generate (encrypt pass), parse_body (decrypt
pass) and verify.

External collaborators that are not part of this core (the byte-level
generator and the parser primitives, the crypter and signer transforms,
the linked list container) are modelled abstractly: the parser is a
stream of parse results consumed in order, and the cryptographic
outcomes of an encryption payload (signature verification, decryption,
signature construction) are carried as status fields of the payload
object.
-/

/-- Status codes of the enclosing code base (types.h). -/
inductive status_t where
  | SUCCESS
  | FAILED
  | OUT_OF_RES
  | NOT_SUPPORTED
  | INVALID_ARG
  | NOT_FOUND
  | PARSE_ERROR
  | VERIFY_ERROR
  | INVALID_STATE
deriving DecidableEq, Repr

/-- IKEv2 exchange types. -/
inductive exchange_type_t where
  | EXCHANGE_TYPE_UNDEFINED
  | IKE_SA_INIT
  | IKE_AUTH
  | CREATE_CHILD_SA
  | INFORMATIONAL
deriving DecidableEq, Repr

/-- IKEv2 payload types, with the sentinel NO_PAYLOAD and the
pseudo-type HEADER that only drives the wire codec. -/
inductive payload_type_t where
  | NO_PAYLOAD
  | HEADER
  | SECURITY_ASSOCIATION
  | KEY_EXCHANGE
  | ID_INITIATOR
  | ID_RESPONDER
  | CERTIFICATE
  | CERTIFICATE_REQUEST
  | AUTHENTICATION
  | NONCE
  | NOTIFY
  | DELETE
  | VENDOR_ID
  | TRAFFIC_SELECTOR_INITIATOR
  | TRAFFIC_SELECTOR_RESPONDER
  | ENCRYPTED
  | CONFIGURATION
  | EXTENSIBLE_AUTHENTICATION
deriving DecidableEq, Repr

/-- IKE SA identifier: initiator/responder SPIs and the initiator flag. -/
structure ike_sa_id_t where
  initiator_spi : Nat
  responder_spi : Nat
  is_initiator : Bool
deriving DecidableEq, Repr

/-- A payload carried inside the Encryption payload envelope.  Only its
type and next-type link are relevant to the message-level logic. -/
structure inner_payload_t where
  ptype : payload_type_t
  next_type : payload_type_t
deriving DecidableEq, Repr

/-- A payload object as seen by message.c: its type, its next-type
link, and the outcomes of the operations the message core invokes on
it.  verify_status is the result of the payload-local verify call;
sig_status, decrypt_status and build_sig_status are the outcomes of
verify_signature, decrypt and build_signature of an encryption payload
(meaningful only when ptype is ENCRYPTED); inner is the list of
payloads the envelope contains after a successful decrypt. -/
structure payload_t where
  ptype : payload_type_t
  next_type : payload_type_t
  verify_status : status_t
  sig_status : status_t
  decrypt_status : status_t
  build_sig_status : status_t
  inner : List inner_payload_t
deriving DecidableEq, Repr

/-- A decrypted inner payload spliced into the outer list becomes an
ordinary payload object (it is not itself an envelope). -/
def inner_payload_t.to_payload (q : inner_payload_t) : payload_t :=
  { ptype := q.ptype
  , next_type := q.next_type
  , verify_status := status_t.SUCCESS
  , sig_status := status_t.SUCCESS
  , decrypt_status := status_t.SUCCESS
  , build_sig_status := status_t.SUCCESS
  , inner := [] }

/-- Supported payload entry used in message_rule_t. -/
structure supported_payload_entry_t where
  payload_type : payload_type_t
  min_occurence : Nat
  max_occurence : Nat
  encrypted : Bool
deriving DecidableEq, Repr

/-- Message rule: which payloads are supported by each message type. -/
structure message_rule_t where
  exchange_type : exchange_type_t
  is_request : Bool
  encrypted_content : Bool
  supported_payloads : List supported_payload_entry_t
deriving DecidableEq, Repr

/-- Message rule payload entries for IKE_SA_INIT from initiator. -/
def supported_ike_sa_init_i_payloads : List supported_payload_entry_t :=
  [ ⟨payload_type_t.SECURITY_ASSOCIATION, 1, 1, false⟩
  , ⟨payload_type_t.KEY_EXCHANGE, 1, 1, false⟩
  , ⟨payload_type_t.NONCE, 1, 1, false⟩ ]

/-- Message rule payload entries for IKE_SA_INIT from responder. -/
def supported_ike_sa_init_r_payloads : List supported_payload_entry_t :=
  [ ⟨payload_type_t.SECURITY_ASSOCIATION, 1, 1, false⟩
  , ⟨payload_type_t.KEY_EXCHANGE, 1, 1, false⟩
  , ⟨payload_type_t.NONCE, 1, 1, false⟩ ]

/-- Message rule payload entries for IKE_AUTH from initiator. -/
def supported_ike_auth_i_payloads : List supported_payload_entry_t :=
  [ ⟨payload_type_t.ID_INITIATOR, 1, 1, true⟩
  , ⟨payload_type_t.CERTIFICATE, 0, 1, true⟩
  , ⟨payload_type_t.CERTIFICATE_REQUEST, 0, 1, true⟩
  , ⟨payload_type_t.ID_RESPONDER, 0, 1, true⟩
  , ⟨payload_type_t.AUTHENTICATION, 1, 1, true⟩
  , ⟨payload_type_t.SECURITY_ASSOCIATION, 1, 1, true⟩
  , ⟨payload_type_t.TRAFFIC_SELECTOR_INITIATOR, 1, 1, true⟩
  , ⟨payload_type_t.TRAFFIC_SELECTOR_RESPONDER, 1, 1, true⟩ ]

/-- Message rule payload entries for IKE_AUTH from responder. -/
def supported_ike_auth_r_payloads : List supported_payload_entry_t :=
  [ ⟨payload_type_t.CERTIFICATE, 0, 1, true⟩
  , ⟨payload_type_t.ID_RESPONDER, 0, 1, true⟩
  , ⟨payload_type_t.AUTHENTICATION, 1, 1, true⟩
  , ⟨payload_type_t.SECURITY_ASSOCIATION, 1, 1, true⟩
  , ⟨payload_type_t.TRAFFIC_SELECTOR_INITIATOR, 1, 1, true⟩
  , ⟨payload_type_t.TRAFFIC_SELECTOR_RESPONDER, 1, 1, true⟩ ]

/-- The static message rule table, defining allowed payloads. -/
def message_rules : List message_rule_t :=
  [ ⟨exchange_type_t.IKE_SA_INIT, true, false, supported_ike_sa_init_i_payloads⟩
  , ⟨exchange_type_t.IKE_SA_INIT, false, false, supported_ike_sa_init_r_payloads⟩
  , ⟨exchange_type_t.IKE_AUTH, true, true, supported_ike_auth_i_payloads⟩
  , ⟨exchange_type_t.IKE_AUTH, false, true, supported_ike_auth_r_payloads⟩ ]

/-- Private data of a message_t object.  The packet's endpoints are
kept as optional opaque hosts; the internal parser is modelled as the
stream of parse results it will deliver, in order. -/
structure private_message_t where
  major_version : Nat
  minor_version : Nat
  first_payload : payload_type_t
  exchange_type : exchange_type_t
  is_request : Bool
  message_id : Nat
  ike_sa_id : Option ike_sa_id_t
  packet_source : Option Nat
  packet_destination : Option Nat
  payloads : List payload_t
  parser_stream : List (status_t × payload_t)
deriving DecidableEq, Repr

/-- Linear scan of the rule table (the loop of get_message_rule). -/
def find_rule : List message_rule_t → exchange_type_t → Bool → Option message_rule_t
  | [], _, _ => none
  | r :: rest, ex, req =>
    if r.exchange_type = ex ∧ r.is_request = req then some r else find_rule rest ex req

/-- get_message_rule: the rule matching (exchange_type, is_request),
none when absent (the C function returns NOT_FOUND and a null rule). -/
def get_message_rule (this : private_message_t) : Option message_rule_t :=
  find_rule message_rules this.exchange_type this.is_request

/-- Linear scan of a rule's entries (the loop of
get_supported_payload_entry). -/
def find_entry : List supported_payload_entry_t → payload_type_t → Option supported_payload_entry_t
  | [], _ => none
  | e :: rest, t => if e.payload_type = t then some e else find_entry rest t

/-- get_supported_payload_entry: the per-type entry of a rule, none
when absent (the C function returns NOT_FOUND and a null entry). -/
def get_supported_payload_entry (message_rule : message_rule_t) (payload_type : payload_type_t) :
    Option supported_payload_entry_t :=
  find_entry message_rule.supported_payloads payload_type

/-- message_create (message_create_from_packet with a null packet):
exchange type undefined, request flag set, no IKE SA id, first payload
NO_PAYLOAD, message id zero, empty packet and payload list.  The
major/minor version fields are not initialized by the constructor in
the source; zero stands for their indeterminate contents. -/
def message_create : private_message_t :=
  { major_version := 0
  , minor_version := 0
  , first_payload := payload_type_t.NO_PAYLOAD
  , exchange_type := exchange_type_t.EXCHANGE_TYPE_UNDEFINED
  , is_request := true
  , message_id := 0
  , ike_sa_id := none
  , packet_source := none
  , packet_destination := none
  , payloads := []
  , parser_stream := [] }

/-- get_ike_sa_id: FAILED with the output left unset when no IKE SA id
is assigned, otherwise SUCCESS and a clone of the id. -/
def get_ike_sa_id (this : private_message_t) : status_t × Option ike_sa_id_t :=
  match this.ike_sa_id with
  | none => (status_t.FAILED, none)
  | some id => (status_t.SUCCESS, some id)

/-- Helper of add_payload: set the next-type link of the last payload
of the list (last_payload->set_next_type in the source). -/
def set_last_next : List payload_t → payload_type_t → List payload_t
  | [], _ => []
  | [p], t => [{ p with next_type := t }]
  | p :: q :: rest, t => p :: set_last_next (q :: rest) t

/-- add_payload: link the previous tail to the new payload's type (or
record it as first payload when the list is empty), clear the new
payload's next-type link and append it. -/
def add_payload (this : private_message_t) (payload : payload_t) : private_message_t :=
  let this1 :=
    if this.payloads.length > 0 then
      { this with payloads := set_last_next this.payloads payload.ptype }
    else
      { this with first_payload := payload.ptype }
  { this1 with payloads := this1.payloads ++ [{ payload with next_type := payload_type_t.NO_PAYLOAD }] }

/-- Occurrences of a payload type in a payload list. -/
def count_type : List payload_t → payload_type_t → Nat
  | [], _ => 0
  | p :: rest, t => count_type rest t + (if p.ptype = t then 1 else 0)

/-- The inner counting loop of verify: walk the list counting payloads
of the given type, aborting (none) as soon as the count exceeds the
maximal occurrence. -/
def scan_count : List payload_t → payload_type_t → Nat → Nat → Option Nat
  | [], _, found, _ => some found
  | p :: rest, t, found, maxo =>
    if p.ptype = t then
      if found + 1 > maxo then none
      else scan_count rest t (found + 1) maxo
    else scan_count rest t found maxo

/-- The outer loop of verify over the rule's entries: NOT_SUPPORTED as
soon as an entry's count exceeds its maximum or falls short of its
minimum, SUCCESS when every entry passes. -/
def verify_entries (ps : List payload_t) : List supported_payload_entry_t → status_t
  | [] => status_t.SUCCESS
  | e :: rest =>
    match scan_count ps e.payload_type 0 e.max_occurence with
    | none => status_t.NOT_SUPPORTED
    | some found =>
      if found < e.min_occurence then status_t.NOT_SUPPORTED
      else verify_entries ps rest

/-- verify: fetch the rule (NOT_FOUND when absent) and check every
entry's occurrence count against its bounds. -/
def verify (this : private_message_t) : status_t :=
  match get_message_rule this with
  | none => status_t.NOT_FOUND
  | some message_rule => verify_entries this.payloads message_rule.supported_payloads

/-- The classification loop of encrypt_payloads.  The source removes
payloads from the temporary list one by one; when a payload's rule
entry is marked encrypted it sets to_encrypt and executes break, which
leaves the loop at once: that payload (and every later one) is neither
moved into an encryption payload nor re-appended, and the in-loop
branch that would transfer it into the envelope is never reached. -/
def encrypt_loop (message_rule : message_rule_t) : List payload_t → List payload_t → List payload_t
  | acc, [] => acc
  | acc, p :: rest =>
    match get_supported_payload_entry message_rule p.ptype with
    | some entry =>
      if entry.encrypted then acc
      else encrypt_loop message_rule (acc ++ [p]) rest
    | none => encrypt_loop message_rule (acc ++ [p]) rest

/-- encrypt_payloads: NOT_FOUND without a rule; a no-op when the rule
has no encrypted content; otherwise the classification loop above.
Because the break leaves the envelope unallocated, no encryption
payload is ever created or encrypted, and the returned status is
SUCCESS. -/
def encrypt_payloads (this : private_message_t) : status_t × private_message_t :=
  match get_message_rule this with
  | none => (status_t.NOT_FOUND, this)
  | some message_rule =>
    if message_rule.encrypted_content = false then (status_t.SUCCESS, this)
    else (status_t.SUCCESS, { this with payloads := encrypt_loop message_rule [] this.payloads })

/-- The generation walk of generate: every payload's next-type link is
overwritten with its successor's type, the last one with NO_PAYLOAD
(the header, generated first, is not part of the list). -/
def chain_list : List payload_t → List payload_t
  | [] => []
  | [p] => [{ p with next_type := payload_type_t.NO_PAYLOAD }]
  | p :: q :: rest => { p with next_type := q.ptype } :: chain_list (q :: rest)

/-- generate: INVALID_STATE when the exchange type is undefined or an
endpoint is unset; then the encrypt pass, whose failure status is
passed through; then the header build, which calls is_initiator on the
IKE SA id with no null check - an unassigned id is a null dereference,
modelled as none; then the generation walk; finally build_signature
when the last generated payload is an encryption payload. -/
def generate (this : private_message_t) : Option (status_t × private_message_t) :=
  if this.exchange_type = exchange_type_t.EXCHANGE_TYPE_UNDEFINED then
    some (status_t.INVALID_STATE, this)
  else if this.packet_source = none ∨ this.packet_destination = none then
    some (status_t.INVALID_STATE, this)
  else
    match encrypt_payloads this with
    | (st, this1) =>
      if st ≠ status_t.SUCCESS then some (st, this1)
      else
        match this1.ike_sa_id with
        | none => none
        | some _ =>
          let this2 := { this1 with payloads := chain_list this1.payloads }
          match this2.payloads.getLast? with
          | some p =>
            if p.ptype = payload_type_t.ENCRYPTED then
              if p.build_sig_status ≠ status_t.SUCCESS then some (p.build_sig_status, this2)
              else some (status_t.SUCCESS, this2)
            else some (status_t.SUCCESS, this2)
          | none => some (status_t.SUCCESS, this2)

/-- The payload-parsing loop of parse_body: starting from the first
payload type, pop the parser's next result; a failed parse is returned
as is, a failed payload-local verify becomes VERIFY_ERROR with the
payload discarded, a successful payload is appended and its next-type
link followed; the loop ends at NO_PAYLOAD.  An exhausted parser is a
short read, PARSE_ERROR. -/
def parse_loop : List (status_t × payload_t) → payload_type_t → List payload_t →
    status_t × List payload_t
  | _, payload_type_t.NO_PAYLOAD, acc => (status_t.SUCCESS, acc)
  | [], _, acc => (status_t.PARSE_ERROR, acc)
  | (st, p) :: rest, _, acc =>
    if st ≠ status_t.SUCCESS then (st, acc)
    else if p.verify_status ≠ status_t.SUCCESS then (status_t.VERIFY_ERROR, acc)
    else parse_loop rest p.next_type (acc ++ [p])

/-- Outcome of the decrypt-pass loop: an early return with a status, or
the loop running to the end (after which verify is called). -/
inductive dec_result where
  | early (st : status_t)
  | finished
deriving DecidableEq, Repr

/-- Weight of a payload list, used as the termination measure of the
decrypt-pass loop: splicing an envelope's inner payloads into the list
strictly reduces it. -/
def list_weight : List payload_t → Nat
  | [] => 0
  | p :: rest => 1 + p.inner.length + list_weight rest

theorem list_weight_map_to_payload (qs : List inner_payload_t) :
    list_weight (qs.map inner_payload_t.to_payload) = qs.length := by
  induction qs with
  | nil => rfl
  | cons q qs ih =>
    simp [list_weight, inner_payload_t.to_payload, ih]
    omega

/-- The decrypt-pass loop of decrypt_payloads over the remaining
payloads (was_enc is current_payload_was_encrypted).  An encryption
payload must be allowed by the rule and must be last, otherwise FAILED;
it is then removed from the list, its signature verified and its body
decrypted (failures return those statuses with the envelope already
removed); an empty envelope is dropped and the loop ends.  Otherwise
the envelope is replaced by its first inner payload and the remaining
inner payloads are appended; the source then falls through to the
rule-entry check still holding the envelope object in current_payload,
so the lookup is made for type ENCRYPTED.  For every ordinary payload
the rule entry must exist (its absence returns the lookup status), and
when the entry's encrypted flag differs from the observed protection
state the source executes return status - but status was just set to
SUCCESS by the successful lookup, so the early return carries SUCCESS. -/
def decrypt_loop (message_rule : message_rule_t) : Bool → List payload_t →
    dec_result × List payload_t
  | _, [] => (dec_result.finished, [])
  | was_enc, p :: rest =>
    if p.ptype = payload_type_t.ENCRYPTED then
      if message_rule.encrypted_content = false then (dec_result.early status_t.FAILED, p :: rest)
      else if rest.length ≠ 0 then (dec_result.early status_t.FAILED, p :: rest)
      else if p.sig_status ≠ status_t.SUCCESS then (dec_result.early p.sig_status, [])
      else if p.decrypt_status ≠ status_t.SUCCESS then (dec_result.early p.decrypt_status, [])
      else
        match _hinner : p.inner with
        | [] => (dec_result.finished, [])
        | q :: qs =>
          match get_supported_payload_entry message_rule p.ptype with
          | none =>
            (dec_result.early status_t.NOT_FOUND, (q :: qs).map inner_payload_t.to_payload)
          | some entry =>
            if entry.encrypted ≠ true then
              (dec_result.early status_t.SUCCESS, (q :: qs).map inner_payload_t.to_payload)
            else
              let r := decrypt_loop message_rule true (qs.map inner_payload_t.to_payload)
              (r.1, q.to_payload :: r.2)
    else
      match get_supported_payload_entry message_rule p.ptype with
      | none => (dec_result.early status_t.NOT_FOUND, p :: rest)
      | some entry =>
        if entry.encrypted ≠ was_enc then (dec_result.early status_t.SUCCESS, p :: rest)
        else
          let r := decrypt_loop message_rule was_enc rest
          (r.1, p :: r.2)
termination_by _ l => list_weight l
decreasing_by
  all_goals simp_wf
  all_goals simp_all [list_weight, list_weight_map_to_payload]
  all_goals omega

/-- decrypt_payloads: NOT_FOUND without a rule; otherwise the
decrypt-pass loop, and when it runs to the end, verify on the
resulting list. -/
def decrypt_payloads (this : private_message_t) : status_t × private_message_t :=
  match get_message_rule this with
  | none => (status_t.NOT_FOUND, this)
  | some message_rule =>
    match decrypt_loop message_rule false this.payloads with
    | (dec_result.early st, ps) => (st, { this with payloads := ps })
    | (dec_result.finished, ps) =>
      let this1 := { this with payloads := ps }
      (verify this1, this1)

/-- parse_body: the payload-parsing loop (its failures are returned
with the payloads parsed so far already appended), then the decrypt
pass, whose failure status is passed through. -/
def parse_body (this : private_message_t) : status_t × private_message_t :=
  match parse_loop this.parser_stream this.first_payload this.payloads with
  | (st, acc) =>
    if st ≠ status_t.SUCCESS then (st, { this with payloads := acc })
    else
      match decrypt_payloads { this with payloads := acc } with
      | (st2, this2) =>
        if st2 ≠ status_t.SUCCESS then (st2, this2) else (status_t.SUCCESS, this2)

/-- Correctness of the next-type links of a payload list: each link
names the successor's type, the last link is NO_PAYLOAD. -/
def links_ok : List payload_t → Bool
  | [] => true
  | [p] => p.next_type == payload_type_t.NO_PAYLOAD
  | p :: q :: rest => p.next_type == q.ptype && links_ok (q :: rest)

/-- The payload-chain invariant of a message: first_payload names the
first payload's type (NO_PAYLOAD when empty) and the links are correct. -/
def chain_ok (this : private_message_t) : Bool :=
  (match this.payloads with
   | [] => this.first_payload == payload_type_t.NO_PAYLOAD
   | p :: _ => this.first_payload == p.ptype) && links_ok this.payloads

/-- A simple payload object with all operation outcomes successful and
no inner payloads. -/
def mk_payload (t nt : payload_type_t) : payload_t :=
  { ptype := t
  , next_type := nt
  , verify_status := status_t.SUCCESS
  , sig_status := status_t.SUCCESS
  , decrypt_status := status_t.SUCCESS
  , build_sig_status := status_t.SUCCESS
  , inner := [] }

theorem get_message_rule_set_payloads (m : private_message_t) (l : List payload_t) :
    get_message_rule { m with payloads := l } = get_message_rule m := rfl

theorem set_last_next_cons (q : payload_t) (rest : List payload_t) (t : payload_type_t) :
    ∃ z zs, set_last_next (q :: rest) t = z :: zs ∧ z.ptype = q.ptype := by
  cases rest with
  | nil => exact ⟨{ q with next_type := t }, [], rfl, rfl⟩
  | cons r rs => exact ⟨q, set_last_next (r :: rs) t, rfl, rfl⟩

theorem links_ok_snoc (pl : payload_t) :
    ∀ l : List payload_t, links_ok l = true →
      links_ok (set_last_next l pl.ptype ++ [{ pl with next_type := payload_type_t.NO_PAYLOAD }]) = true := by
  intro l
  induction l with
  | nil => intro _; simp [set_last_next, links_ok]
  | cons p rest ih =>
    intro h
    cases rest with
    | nil => simp [set_last_next, links_ok]
    | cons q rs =>
      obtain ⟨z, zs, hz, hzp⟩ := set_last_next_cons q rs pl.ptype
      have hlinks : links_ok (p :: q :: rs) = true := h
      simp only [links_ok, Bool.and_eq_true, beq_iff_eq] at hlinks
      have ih2 := ih hlinks.2
      rw [hz] at ih2
      simp only [List.cons_append] at ih2
      simp only [set_last_next, hz, List.cons_append, links_ok]
      cases hcons : zs ++ [{ pl with next_type := payload_type_t.NO_PAYLOAD }] with
      | nil => simp at hcons
      | cons w ws =>
        rw [hcons] at ih2
        simp only [links_ok] at ih2 ⊢
        simp [hzp, hlinks.1, ih2]

theorem add_payload_chain (m : private_message_t) (pl : payload_t)
    (h : chain_ok m = true) : chain_ok (add_payload m pl) = true := by
  unfold add_payload
  cases hm : m.payloads with
  | nil => simp [chain_ok, hm, links_ok]
  | cons p rest =>
    simp only [chain_ok, hm, Bool.and_eq_true, beq_iff_eq] at h
    obtain ⟨z, zs, hz, hzp⟩ := set_last_next_cons p rest pl.ptype
    have hlinks := links_ok_snoc pl (p :: rest) h.2
    simp only [hm, List.length_cons, chain_ok]
    simp only [Nat.succ_pos, if_pos, gt_iff_lt]
    rw [hz] at hlinks ⊢
    simp only [List.cons_append, Bool.and_eq_true, beq_iff_eq]
    exact ⟨by simpa [hzp] using h.1, hlinks⟩

theorem foldl_add_payload_chain (ps : List payload_t) :
    ∀ m : private_message_t, chain_ok m = true →
      chain_ok (ps.foldl add_payload m) = true := by
  induction ps with
  | nil => intro m h; simpa using h
  | cons p rest ih =>
    intro m h
    simpa using ih (add_payload m p) (add_payload_chain m p h)

/-- C7: the next-type chain is an invariant of add_payload: from any
message satisfying it (in particular a fresh one) every sequence of
add_payload calls keeps first_payload equal to the first payload's
type (NO_PAYLOAD when empty), every payload's next-type link equal to
its successor's type, and the last link NO_PAYLOAD. -/
theorem c7_next_type_chain_invariant :
    (∀ (m : private_message_t) (pl : payload_t),
       chain_ok m = true → chain_ok (add_payload m pl) = true) ∧
    (∀ ps : List payload_t, chain_ok (ps.foldl add_payload message_create) = true) := by
  refine ⟨add_payload_chain, fun ps => foldl_add_payload_chain ps message_create ?_⟩
  decide

/-- Witness for C7 at a concrete input. -/
theorem c7_next_type_chain_invariant_witness :
    chain_ok (add_payload message_create
      (mk_payload payload_type_t.SECURITY_ASSOCIATION payload_type_t.NO_PAYLOAD)) = true :=
  c7_next_type_chain_invariant.1 message_create
    (mk_payload payload_type_t.SECURITY_ASSOCIATION payload_type_t.NO_PAYLOAD) (by decide)

/-- C10: a fresh message has exchange type undefined, the request flag
set, message id zero, first payload NO_PAYLOAD and no IKE SA id, and
on any message without an assigned IKE SA id get_ike_sa_id returns
FAILED with the output left unset. -/
theorem c10_fresh_message_defaults :
    message_create.exchange_type = exchange_type_t.EXCHANGE_TYPE_UNDEFINED ∧
    message_create.is_request = true ∧
    message_create.message_id = 0 ∧
    message_create.first_payload = payload_type_t.NO_PAYLOAD ∧
    message_create.ike_sa_id = none ∧
    (∀ m : private_message_t, m.ike_sa_id = none →
       get_ike_sa_id m = (status_t.FAILED, none)) := by
  refine ⟨rfl, rfl, rfl, rfl, rfl, ?_⟩
  intro m h
  simp [get_ike_sa_id, h]

/-- Witness for C10 at a concrete input. -/
theorem c10_fresh_message_defaults_witness :
    get_ike_sa_id message_create = (status_t.FAILED, none) :=
  c10_fresh_message_defaults.2.2.2.2.2 message_create rfl

theorem scan_count_spec (t : payload_type_t) :
    ∀ (l : List payload_t) (found maxo : Nat), found ≤ maxo →
      scan_count l t found maxo =
        if maxo < found + count_type l t then none else some (found + count_type l t) := by
  intro l
  induction l with
  | nil =>
    intro found maxo h
    simp [scan_count, count_type]
    omega
  | cons p rest ih =>
    intro found maxo h
    by_cases hpt : p.ptype = t
    · simp only [scan_count, count_type, hpt, if_pos]
      by_cases hover : found + 1 > maxo
      · rw [if_pos hover, if_pos (by omega)]
      · rw [if_neg hover, ih (found + 1) maxo (by omega)]
        by_cases hc : maxo < found + 1 + count_type rest t
        · rw [if_pos hc, if_pos (by omega)]
        · rw [if_neg hc, if_neg (by omega)]
          congr 1
          omega
    · simp only [scan_count, count_type, hpt, if_neg, ite_false]
      rw [ih found maxo h]
      simp

theorem verify_entries_cons (ps : List payload_t) (e : supported_payload_entry_t)
    (rest : List supported_payload_entry_t) :
    verify_entries ps (e :: rest) =
      if e.max_occurence < count_type ps e.payload_type then status_t.NOT_SUPPORTED
      else if count_type ps e.payload_type < e.min_occurence then status_t.NOT_SUPPORTED
      else verify_entries ps rest := by
  simp only [verify_entries, scan_count_spec e.payload_type ps 0 e.max_occurence (Nat.zero_le _),
    Nat.zero_add]
  by_cases hmax : e.max_occurence < count_type ps e.payload_type
  · rw [if_pos hmax, if_pos hmax]
  · rw [if_neg hmax, if_neg hmax]

theorem verify_entries_success_iff (ps : List payload_t) :
    ∀ es : List supported_payload_entry_t,
      (verify_entries ps es = status_t.SUCCESS ↔
        ∀ e ∈ es, e.min_occurence ≤ count_type ps e.payload_type ∧
          count_type ps e.payload_type ≤ e.max_occurence) := by
  intro es
  induction es with
  | nil => simp [verify_entries]
  | cons e rest ih =>
    rw [verify_entries_cons]
    by_cases hmax : e.max_occurence < count_type ps e.payload_type
    · rw [if_pos hmax]
      simp only [List.mem_cons]
      constructor
      · intro hfalse; cases hfalse
      · intro hall
        have := (hall e (Or.inl rfl)).2
        omega
    · rw [if_neg hmax]
      by_cases hmin : count_type ps e.payload_type < e.min_occurence
      · rw [if_pos hmin]
        simp only [List.mem_cons]
        constructor
        · intro hfalse; cases hfalse
        · intro hall
          have := (hall e (Or.inl rfl)).1
          omega
      · rw [if_neg hmin]
        rw [ih]
        simp only [List.mem_cons]
        constructor
        · intro hall
          intro x hx
          cases hx with
          | inl hx => subst hx; omega
          | inr hx => exact hall x hx
        · intro hall x hx
          exact hall x (Or.inr hx)

theorem verify_entries_cases (ps : List payload_t) :
    ∀ es : List supported_payload_entry_t,
      verify_entries ps es = status_t.SUCCESS ∨ verify_entries ps es = status_t.NOT_SUPPORTED := by
  intro es
  induction es with
  | nil => left; rfl
  | cons e rest ih =>
    rw [verify_entries_cons]
    by_cases hmax : e.max_occurence < count_type ps e.payload_type
    · right; rw [if_pos hmax]
    · rw [if_neg hmax]
      by_cases hmin : count_type ps e.payload_type < e.min_occurence
      · right; rw [if_pos hmin]
      · rw [if_neg hmin]; exact ih

theorem verify_entries_not_supported_iff (ps : List payload_t)
    (es : List supported_payload_entry_t) :
    (verify_entries ps es = status_t.NOT_SUPPORTED ↔
      ∃ e ∈ es, e.max_occurence < count_type ps e.payload_type ∨
        count_type ps e.payload_type < e.min_occurence) := by
  constructor
  · intro h
    by_contra hno
    push_neg at hno
    have hall : ∀ e ∈ es, e.min_occurence ≤ count_type ps e.payload_type ∧
        count_type ps e.payload_type ≤ e.max_occurence := by
      intro e he
      have := hno e he
      omega
    have := (verify_entries_success_iff ps es).mpr hall
    rw [this] at h
    cases h
  · intro ⟨e, he, hbad⟩
    cases verify_entries_cases ps es with
    | inr h => exact h
    | inl h =>
      have := (verify_entries_success_iff ps es).mp h e he
      omega

/-- C5: with a rule present, verify returns NOT_SUPPORTED exactly when
some entry's occurrence count in the current payload list exceeds its
maximum or falls below its minimum, returns SUCCESS exactly when every
entry's count lies within its bounds, and without a rule it returns
the NOT_FOUND of the rule lookup. -/
theorem c5_verify_multiplicity (m : private_message_t) (rule : message_rule_t)
    (hr : get_message_rule m = some rule) :
    (verify m = status_t.NOT_SUPPORTED ↔
      ∃ e ∈ rule.supported_payloads,
        e.max_occurence < count_type m.payloads e.payload_type ∨
        count_type m.payloads e.payload_type < e.min_occurence) ∧
    (verify m = status_t.SUCCESS ↔
      ∀ e ∈ rule.supported_payloads,
        e.min_occurence ≤ count_type m.payloads e.payload_type ∧
        count_type m.payloads e.payload_type ≤ e.max_occurence) ∧
    (∀ m2 : private_message_t, get_message_rule m2 = none → verify m2 = status_t.NOT_FOUND) := by
  refine ⟨?_, ?_, ?_⟩
  · rw [show verify m = verify_entries m.payloads rule.supported_payloads by
      simp [verify, hr]]
    exact verify_entries_not_supported_iff m.payloads rule.supported_payloads
  · rw [show verify m = verify_entries m.payloads rule.supported_payloads by
      simp [verify, hr]]
    exact verify_entries_success_iff m.payloads rule.supported_payloads
  · intro m2 h2
    simp [verify, h2]

/-- Witness for C5 at a concrete input: an IKE_SA_INIT request holding
SA, KE and Nonce payloads passes verify. -/
theorem c5_verify_multiplicity_witness :
    verify { message_create with
      exchange_type := exchange_type_t.IKE_SA_INIT
      , payloads :=
        [ mk_payload payload_type_t.SECURITY_ASSOCIATION payload_type_t.KEY_EXCHANGE
        , mk_payload payload_type_t.KEY_EXCHANGE payload_type_t.NONCE
        , mk_payload payload_type_t.NONCE payload_type_t.NO_PAYLOAD ] } = status_t.SUCCESS :=
  (c5_verify_multiplicity _ ⟨exchange_type_t.IKE_SA_INIT, true, false, supported_ike_sa_init_i_payloads⟩
    (by decide)).2.1.mpr (by decide)

theorem count_type_perm {l1 l2 : List payload_t} (h : l1.Perm l2) (t : payload_type_t) :
    count_type l1 t = count_type l2 t := by
  induction h with
  | nil => rfl
  | cons x _ ih => simp [count_type, ih]
  | swap x y l => simp [count_type]; omega
  | trans _ _ ih1 ih2 => omega

theorem verify_entries_count_congr (ps1 ps2 : List payload_t)
    (h : ∀ t, count_type ps1 t = count_type ps2 t) :
    ∀ es : List supported_payload_entry_t, verify_entries ps1 es = verify_entries ps2 es := by
  intro es
  induction es with
  | nil => rfl
  | cons e rest ih =>
    rw [verify_entries_cons, verify_entries_cons, h e.payload_type, ih]

/-- C8: the result of verify is invariant under permutation of the
payload list, since it depends only on the per-type occurrence counts. -/
theorem c8_verify_permutation_invariant (m : private_message_t) (l2 : List payload_t)
    (h : m.payloads.Perm l2) :
    verify m = verify { m with payloads := l2 } := by
  have hrule : get_message_rule { m with payloads := l2 } = get_message_rule m := rfl
  unfold verify
  rw [hrule]
  cases get_message_rule m with
  | none => rfl
  | some rule =>
    exact verify_entries_count_congr m.payloads l2 (fun t => count_type_perm h t)
      rule.supported_payloads

/-- Witness for C8 at a concrete input: swapping KE before SA does not
change the verify result. -/
theorem c8_verify_permutation_invariant_witness :
    verify { message_create with
      exchange_type := exchange_type_t.IKE_SA_INIT
      , payloads :=
        [ mk_payload payload_type_t.SECURITY_ASSOCIATION payload_type_t.KEY_EXCHANGE
        , mk_payload payload_type_t.KEY_EXCHANGE payload_type_t.NO_PAYLOAD ] } =
    verify { message_create with
      exchange_type := exchange_type_t.IKE_SA_INIT
      , payloads :=
        [ mk_payload payload_type_t.KEY_EXCHANGE payload_type_t.NO_PAYLOAD
        , mk_payload payload_type_t.SECURITY_ASSOCIATION payload_type_t.KEY_EXCHANGE ] } :=
  c8_verify_permutation_invariant _ _ (by decide)

/-- Equality of all message fields except the payload list: the
metadata populated by parse_header plus the parser itself. -/
def same_meta (a b : private_message_t) : Prop :=
  a.exchange_type = b.exchange_type ∧ a.is_request = b.is_request ∧
  a.message_id = b.message_id ∧ a.major_version = b.major_version ∧
  a.minor_version = b.minor_version ∧ a.first_payload = b.first_payload ∧
  a.ike_sa_id = b.ike_sa_id ∧ a.packet_source = b.packet_source ∧
  a.packet_destination = b.packet_destination ∧ a.parser_stream = b.parser_stream

theorem same_meta_set_payloads (m : private_message_t) (l : List payload_t) :
    same_meta { m with payloads := l } m :=
  ⟨rfl, rfl, rfl, rfl, rfl, rfl, rfl, rfl, rfl, rfl⟩

theorem same_meta_refl (m : private_message_t) : same_meta m m :=
  ⟨rfl, rfl, rfl, rfl, rfl, rfl, rfl, rfl, rfl, rfl⟩

theorem same_meta_trans {a b c : private_message_t}
    (h1 : same_meta a b) (h2 : same_meta b c) : same_meta a c := by
  obtain ⟨e1, r1, i1, j1, n1, f1, k1, s1, d1, p1⟩ := h1
  obtain ⟨e2, r2, i2, j2, n2, f2, k2, s2, d2, p2⟩ := h2
  exact ⟨e1.trans e2, r1.trans r2, i1.trans i2, j1.trans j2, n1.trans n2,
    f1.trans f2, k1.trans k2, s1.trans s2, d1.trans d2, p1.trans p2⟩

theorem decrypt_payloads_meta (m : private_message_t) :
    same_meta ((decrypt_payloads m).2) m := by
  cases hrule : get_message_rule m with
  | none =>
    simp only [decrypt_payloads, hrule]
    exact same_meta_refl m
  | some rule =>
    cases hd : decrypt_loop rule false m.payloads with
    | mk r ps =>
      cases r with
      | early st =>
        simp only [decrypt_payloads, hrule, hd]
        exact same_meta_set_payloads m ps
      | finished =>
        simp only [decrypt_payloads, hrule, hd]
        exact same_meta_set_payloads m ps

theorem parse_body_meta (m : private_message_t) :
    same_meta ((parse_body m).2) m := by
  cases hp : parse_loop m.parser_stream m.first_payload m.payloads with
  | mk st acc =>
    by_cases hst : st ≠ status_t.SUCCESS
    · simp only [parse_body, hp, if_pos hst]
      exact same_meta_set_payloads m acc
    · simp only [parse_body, hp, if_neg hst]
      cases hd : decrypt_payloads { m with payloads := acc } with
      | mk st2 m2 =>
        have hmeta := decrypt_payloads_meta { m with payloads := acc }
        rw [hd] at hmeta
        have hmeta2 : same_meta m2 m :=
          same_meta_trans hmeta (same_meta_set_payloads m acc)
        simp only [hd]
        by_cases h2 : st2 ≠ status_t.SUCCESS
        · rw [if_pos h2]; exact hmeta2
        · rw [if_neg h2]; exact hmeta2

/-- Inbound message whose parser delivers a correct SA payload and then
fails with PARSE_ERROR on the KE payload announced by its next-type
link. -/
def m_c3 : private_message_t :=
  { message_create with
    exchange_type := exchange_type_t.IKE_SA_INIT
    , first_payload := payload_type_t.SECURITY_ASSOCIATION
    , parser_stream :=
      [ (status_t.SUCCESS,
         mk_payload payload_type_t.SECURITY_ASSOCIATION payload_type_t.KEY_EXCHANGE)
      , (status_t.PARSE_ERROR,
         mk_payload payload_type_t.KEY_EXCHANGE payload_type_t.NO_PAYLOAD) ] }

/-- C3 counterexample: on this message parse_body fails with
PARSE_ERROR, yet the payload list observed afterwards differs from the
list before the call - the SA payload parsed before the failure stays
appended, so the caller-visible state is not the pre-call state. -/
theorem c3_counterexample_state_mutated :
    (parse_body m_c3).1 = status_t.PARSE_ERROR ∧
    ((parse_body m_c3).2).payloads ≠ m_c3.payloads := by
  decide

/-- C3 amended: whenever parse_body returns (in particular on any
failure), the metadata set by parse_header is unchanged; the payload
list however is not rolled back: when the payload-parsing loop fails,
the message keeps exactly the payloads successfully parsed and
appended before the failure. -/
theorem c3_parse_body_failure_state (m : private_message_t) :
    same_meta ((parse_body m).2) m ∧
    (∀ st acc, parse_loop m.parser_stream m.first_payload m.payloads = (st, acc) →
      st ≠ status_t.SUCCESS → ((parse_body m).2).payloads = acc) := by
  refine ⟨parse_body_meta m, ?_⟩
  intro st acc hp hne
  simp only [parse_body, hp, if_pos hne]

/-- Witness for C3's amended statement at a concrete input. -/
theorem c3_parse_body_failure_state_witness :
    ((parse_body m_c3).2).payloads =
      [ mk_payload payload_type_t.SECURITY_ASSOCIATION payload_type_t.KEY_EXCHANGE ] :=
  (c3_parse_body_failure_state m_c3).2 status_t.PARSE_ERROR
    [ mk_payload payload_type_t.SECURITY_ASSOCIATION payload_type_t.KEY_EXCHANGE ]
    (by decide) (by decide)

/-- A payload of the prefix before the envelope is processed by the
decrypt pass without an early return while unprotected: it is either
itself an ENCRYPTED payload (then the pass fails at it, also FAILED),
or an ordinary payload whose rule entry exists and is not marked
encrypted. -/
def benign_prefix (message_rule : message_rule_t) (pre : List payload_t) : Prop :=
  ∀ q ∈ pre, q.ptype = payload_type_t.ENCRYPTED ∨
    (q.ptype ≠ payload_type_t.ENCRYPTED ∧
      ∃ e, get_supported_payload_entry message_rule q.ptype = some e ∧ e.encrypted = false)

theorem decrypt_loop_enc_not_last (message_rule : message_rule_t) :
    ∀ (pre : List payload_t) (p : payload_t) (rest : List payload_t),
      benign_prefix message_rule pre →
      p.ptype = payload_type_t.ENCRYPTED →
      (message_rule.encrypted_content = false ∨ rest ≠ []) →
      (decrypt_loop message_rule false (pre ++ p :: rest)).1 =
        dec_result.early status_t.FAILED := by
  intro pre
  induction pre with
  | nil =>
    intro p rest _ hp hbad
    simp only [List.nil_append, decrypt_loop, if_pos hp]
    by_cases hec : message_rule.encrypted_content = false
    · rw [if_pos hec]
    · rw [if_neg hec]
      have hrest : rest ≠ [] := by
        cases hbad with
        | inl h => exact absurd h hec
        | inr h => exact h
      rw [if_pos (by simpa using hrest)]
  | cons q pre ih =>
    intro p rest hpre hp hbad
    have hq := hpre q (List.mem_cons_self q pre)
    have hpre2 : benign_prefix message_rule pre :=
      fun x hx => hpre x (List.mem_cons_of_mem q hx)
    cases hq with
    | inl henc =>
      simp only [List.cons_append, decrypt_loop, if_pos henc]
      by_cases hec : message_rule.encrypted_content = false
      · rw [if_pos hec]
      · rw [if_neg hec]
        rw [if_pos (by simp)]
    | inr hord =>
      obtain ⟨hne, e, he, hef⟩ := hord
      simp only [List.cons_append, decrypt_loop, if_neg hne, he]
      rw [if_neg (by simp [hef])]
      exact ih p rest hpre2 hp hbad

/-- C4: during the decrypt pass, an Encryption payload met while the
rule forbids encrypted content, or met anywhere but the last position
of the outer list, makes parse_body return FAILED (stated for a parse
whose payload loop succeeded and produced the list in question, with
the payloads before the envelope processed without early return). -/
theorem c4_encryption_payload_not_last_failed
    (m : private_message_t) (rule : message_rule_t)
    (pre : List payload_t) (p : payload_t) (rest : List payload_t)
    (hparse : parse_loop m.parser_stream m.first_payload m.payloads =
      (status_t.SUCCESS, pre ++ p :: rest))
    (hrule : get_message_rule m = some rule)
    (hpre : benign_prefix rule pre)
    (hp : p.ptype = payload_type_t.ENCRYPTED)
    (hbad : rule.encrypted_content = false ∨ rest ≠ []) :
    (parse_body m).1 = status_t.FAILED := by
  have hrule2 : get_message_rule { m with payloads := pre ++ p :: rest } = some rule := hrule
  have hloop := decrypt_loop_enc_not_last rule pre p rest hpre hp hbad
  cases hd : decrypt_loop rule false (pre ++ p :: rest) with
  | mk r ps =>
    rw [hd] at hloop
    simp only at hloop
    subst hloop
    have hdec : decrypt_payloads { m with payloads := pre ++ p :: rest } =
        (status_t.FAILED, { m with payloads := ps }) := by
      simp only [decrypt_payloads, hrule2, hd]
    simp only [parse_body, hparse, if_neg (by simp : ¬(status_t.SUCCESS ≠ status_t.SUCCESS)),
      hdec, if_pos (by simp : status_t.FAILED ≠ status_t.SUCCESS)]

/-- Witness for C4 at a concrete input: an IKE_SA_INIT request (whose
rule forbids encrypted content) arriving as a single Encryption
payload is rejected with FAILED. -/
theorem c4_encryption_payload_not_last_failed_witness :
    (parse_body { message_create with
      exchange_type := exchange_type_t.IKE_SA_INIT
      , first_payload := payload_type_t.ENCRYPTED
      , parser_stream :=
        [ (status_t.SUCCESS, mk_payload payload_type_t.ENCRYPTED payload_type_t.NO_PAYLOAD) ] }).1 =
      status_t.FAILED :=
  c4_encryption_payload_not_last_failed _
    ⟨exchange_type_t.IKE_SA_INIT, true, false, supported_ike_sa_init_i_payloads⟩
    [] (mk_payload payload_type_t.ENCRYPTED payload_type_t.NO_PAYLOAD) []
    (by decide) (by decide) (fun q hq => absurd hq (List.not_mem_nil q))
    (by decide) (Or.inl (by decide))

/-- The rule record for IKE_AUTH requests (third record of the table). -/
def rule_ike_auth_i : message_rule_t :=
  ⟨exchange_type_t.IKE_AUTH, true, true, supported_ike_auth_i_payloads⟩

/-- The ID_INITIATOR payload of the C2 scenario. -/
def pl_c2 : payload_t := mk_payload payload_type_t.ID_INITIATOR payload_type_t.NO_PAYLOAD

/-- An IKE_AUTH request arriving as a single unprotected ID_INITIATOR
payload (no Encryption envelope), although the rule marks ID_INITIATOR
as must-be-encrypted. -/
def m_c2 : private_message_t :=
  { message_create with
    exchange_type := exchange_type_t.IKE_AUTH
    , first_payload := payload_type_t.ID_INITIATOR
    , parser_stream := [ (status_t.SUCCESS, pl_c2) ] }

/-- C2 (evaluation of the code at the failing input): the rule entry of
ID_INITIATOR demands encryption and the payload arrived unprotected,
yet parse_body returns SUCCESS - at the mismatch the code executes
return status while status still holds the SUCCESS of the preceding
rule-entry lookup, also skipping the final verify (which, as the third
conjunct shows, would itself have rejected the message). -/
theorem c2_protection_mismatch_returns_success :
    (parse_body m_c2).1 = status_t.SUCCESS ∧
    get_supported_payload_entry rule_ike_auth_i payload_type_t.ID_INITIATOR =
      some ⟨payload_type_t.ID_INITIATOR, 1, 1, true⟩ ∧
    verify { m_c2 with payloads := [pl_c2] } = status_t.NOT_SUPPORTED := by
  refine ⟨?_, by decide, by decide⟩
  have hd : decrypt_loop rule_ike_auth_i false [pl_c2] =
      (dec_result.early status_t.SUCCESS, [pl_c2]) := by
    simp [decrypt_loop, rule_ike_auth_i, pl_c2, mk_payload, get_supported_payload_entry,
      supported_ike_auth_i_payloads, find_entry]
  have hrule : get_message_rule { m_c2 with payloads := [pl_c2] } = some rule_ike_auth_i := by
    decide
  have hparse : parse_loop m_c2.parser_stream m_c2.first_payload m_c2.payloads =
      (status_t.SUCCESS, [pl_c2]) := by decide
  simp [parse_body, hparse, decrypt_payloads, hrule, hd]

/-- An IKE_AUTH response populated with ID_r, AUTH, SA, TSi, TSr - all
marked must-be-encrypted by the rule - with endpoints and IKE SA id
assigned. -/
def m_c1 : private_message_t :=
  { message_create with
    exchange_type := exchange_type_t.IKE_AUTH
    , is_request := false
    , ike_sa_id := some ⟨1, 2, true⟩
    , packet_source := some 1
    , packet_destination := some 2
    , first_payload := payload_type_t.ID_RESPONDER
    , payloads :=
      [ mk_payload payload_type_t.ID_RESPONDER payload_type_t.AUTHENTICATION
      , mk_payload payload_type_t.AUTHENTICATION payload_type_t.SECURITY_ASSOCIATION
      , mk_payload payload_type_t.SECURITY_ASSOCIATION payload_type_t.TRAFFIC_SELECTOR_INITIATOR
      , mk_payload payload_type_t.TRAFFIC_SELECTOR_INITIATOR payload_type_t.TRAFFIC_SELECTOR_RESPONDER
      , mk_payload payload_type_t.TRAFFIC_SELECTOR_RESPONDER payload_type_t.NO_PAYLOAD ] }

/-- C1 (evaluation of the code at the failing input): on an IKE_AUTH
response holding ID_r, AUTH, SA, TSi, TSr, the classification loop of
the encrypt pass breaks at the very first payload marked for
encryption before transferring it anywhere, so no Encryption payload
is ever created: generate succeeds but emits a message whose outer
payload list is empty - all five payloads are dropped instead of being
wrapped into a single Encryption payload. -/
theorem c1_encrypt_pass_drops_all_protected_payloads :
    (m_c1.payloads.map payload_t.ptype) =
      [ payload_type_t.ID_RESPONDER, payload_type_t.AUTHENTICATION,
        payload_type_t.SECURITY_ASSOCIATION, payload_type_t.TRAFFIC_SELECTOR_INITIATOR,
        payload_type_t.TRAFFIC_SELECTOR_RESPONDER ] ∧
    encrypt_payloads m_c1 = (status_t.SUCCESS, { m_c1 with payloads := [] }) ∧
    generate m_c1 = some (status_t.SUCCESS, { m_c1 with payloads := [] }) := by
  decide

theorem encrypt_payloads_meta (m : private_message_t) :
    same_meta ((encrypt_payloads m).2) m := by
  cases hrule : get_message_rule m with
  | none =>
    simp only [encrypt_payloads, hrule]
    exact same_meta_refl m
  | some rule =>
    by_cases hec : rule.encrypted_content = false
    · simp only [encrypt_payloads, hrule, if_pos hec]
      exact same_meta_refl m
    · simp only [encrypt_payloads, hrule, if_neg hec]
      exact same_meta_set_payloads m _

/-- A message with everything assigned except the IKE SA id. -/
def m_c6 : private_message_t :=
  { message_create with
    exchange_type := exchange_type_t.IKE_SA_INIT
    , packet_source := some 1
    , packet_destination := some 2 }

/-- C6 counterexample: on a message whose exchange type is defined and
whose endpoints are set but whose IKE SA id is unassigned, generate
does not return INVALID_STATE - the source calls is_initiator on the
null IKE SA id without any check, a null dereference modelled as none. -/
theorem c6_counterexample_null_ike_sa_id :
    m_c6.exchange_type ≠ exchange_type_t.EXCHANGE_TYPE_UNDEFINED ∧
    m_c6.packet_source ≠ none ∧ m_c6.packet_destination ≠ none ∧
    m_c6.ike_sa_id = none ∧
    generate m_c6 = none := by
  decide

/-- C6 amended: generate returns INVALID_STATE when the exchange type
is UNDEFINED, and when the source or destination endpoint is unset; an
unassigned IKE SA id, however, is never checked - once the first two
checks and the encrypt pass succeed, generate dereferences the null
IKE SA id (undefined behaviour, modelled as none) instead of
returning INVALID_STATE. -/
theorem c6_generate_preconditions (m : private_message_t) :
    (m.exchange_type = exchange_type_t.EXCHANGE_TYPE_UNDEFINED →
       generate m = some (status_t.INVALID_STATE, m)) ∧
    (m.exchange_type ≠ exchange_type_t.EXCHANGE_TYPE_UNDEFINED →
       (m.packet_source = none ∨ m.packet_destination = none) →
       generate m = some (status_t.INVALID_STATE, m)) ∧
    (m.exchange_type ≠ exchange_type_t.EXCHANGE_TYPE_UNDEFINED →
       m.packet_source ≠ none → m.packet_destination ≠ none →
       (encrypt_payloads m).1 = status_t.SUCCESS → m.ike_sa_id = none →
       generate m = none) := by
  refine ⟨?_, ?_, ?_⟩
  · intro h
    simp [generate, h]
  · intro h1 h2
    simp only [generate, if_neg h1, if_pos h2]
  · intro h1 h2 h3 hst hid
    have hor : ¬(m.packet_source = none ∨ m.packet_destination = none) := by
      intro hc
      cases hc with
      | inl a => exact h2 a
      | inr b => exact h3 b
    cases henc : encrypt_payloads m with
    | mk st m1 =>
      have hst2 : st = status_t.SUCCESS := by rw [henc] at hst; exact hst
      subst hst2
      have hmeta := encrypt_payloads_meta m
      rw [henc] at hmeta
      have hid1 : m1.ike_sa_id = none := hmeta.2.2.2.2.2.2.1.trans hid
      simp [generate, if_neg h1, if_neg hor, henc, hid1]

/-- Witness for C6's amended statement at a concrete input: a fresh
message (exchange type UNDEFINED) is rejected with INVALID_STATE. -/
theorem c6_generate_preconditions_witness :
    generate message_create = some (status_t.INVALID_STATE, message_create) :=
  (c6_generate_preconditions message_create).1 rfl

/-- A CREATE_CHILD_SA request with endpoints set: no rule exists for
this exchange type. -/
def m_c9 : private_message_t :=
  { message_create with
    exchange_type := exchange_type_t.CREATE_CHILD_SA
    , packet_source := some 1
    , packet_destination := some 2 }

/-- C9: the static rule table holds exactly the four records
(IKE_SA_INIT, request), (IKE_SA_INIT, response), (IKE_AUTH, request),
(IKE_AUTH, response), with encrypted_content false for IKE_SA_INIT and
true for IKE_AUTH; for any message of any other exchange type (such as
CREATE_CHILD_SA or INFORMATIONAL) the rule lookup yields none, so
verify and the decrypt pass return NOT_FOUND, parse_body returns
NOT_FOUND whenever its payload-parsing loop succeeds, and generate
returns NOT_FOUND once its earlier INVALID_STATE checks pass. -/
theorem c9_rule_table_and_not_found :
    (message_rules.map fun r => (r.exchange_type, r.is_request, r.encrypted_content)) =
      [ (exchange_type_t.IKE_SA_INIT, true, false)
      , (exchange_type_t.IKE_SA_INIT, false, false)
      , (exchange_type_t.IKE_AUTH, true, true)
      , (exchange_type_t.IKE_AUTH, false, true) ] ∧
    (∀ m : private_message_t,
      m.exchange_type ≠ exchange_type_t.IKE_SA_INIT →
      m.exchange_type ≠ exchange_type_t.IKE_AUTH →
      get_message_rule m = none ∧
      verify m = status_t.NOT_FOUND ∧
      (decrypt_payloads m).1 = status_t.NOT_FOUND ∧
      ((parse_loop m.parser_stream m.first_payload m.payloads).1 = status_t.SUCCESS →
        (parse_body m).1 = status_t.NOT_FOUND) ∧
      (m.exchange_type ≠ exchange_type_t.EXCHANGE_TYPE_UNDEFINED →
        m.packet_source ≠ none → m.packet_destination ≠ none →
        generate m = some (status_t.NOT_FOUND, m))) := by
  refine ⟨by decide, ?_⟩
  intro m h1 h2
  have hnone : get_message_rule m = none := by
    simp [get_message_rule, message_rules, find_rule, Ne.symm h1, Ne.symm h2]
  refine ⟨hnone, ?_, ?_, ?_, ?_⟩
  · simp [verify, hnone]
  · simp [decrypt_payloads, hnone]
  · intro hps
    cases hp : parse_loop m.parser_stream m.first_payload m.payloads with
    | mk st acc =>
      have hst : st = status_t.SUCCESS := by rw [hp] at hps; exact hps
      subst hst
      have hnone2 : get_message_rule { m with payloads := acc } = none := hnone
      simp [parse_body, hp, decrypt_payloads, hnone2]
  · intro h3 h4 h5
    have hor : ¬(m.packet_source = none ∨ m.packet_destination = none) := by
      intro hc
      cases hc with
      | inl a => exact h4 a
      | inr b => exact h5 b
    simp [generate, if_neg h3, if_neg hor, encrypt_payloads, hnone]

/-- Witness for C9 at a concrete input. -/
theorem c9_rule_table_and_not_found_witness :
    get_message_rule m_c9 = none ∧
    verify m_c9 = status_t.NOT_FOUND ∧
    (parse_body m_c9).1 = status_t.NOT_FOUND ∧
    generate m_c9 = some (status_t.NOT_FOUND, m_c9) := by
  have h := c9_rule_table_and_not_found.2 m_c9 (by decide) (by decide)
  exact ⟨h.1, h.2.1, h.2.2.2.1 (by decide),
    h.2.2.2.2 (by decide) (by decide) (by decide)⟩
